import Mathlib

/-!
Shallow embedding of `script.py`: a harvesting pipeline that fetches training
metadata, maps each record to the EOSC training-resource schema, validates the
mapped record against a remote endpoint and routes outcomes into a success
store and a failure store.

JSON values are modelled by the inductive `Json` below.  Object fields are kept
in a canonical order (the script serialises every snapshot file with
`json.dump(..., sort_keys=True)`), so structural equality of `Json` coincides
with Python equality on the values the pipeline compares.  JSON numbers are
modelled as integers; no claim involves floating point.  Remote calls are
modelled by oracle functions passed as arguments; `Option.none` models a
request that raises (the `requests.exceptions.RequestException` branch of
`get_api_data`, which prints the error and returns `None`).

Python exceptions inside the mapper are modelled with `Except String`; an
exception that escapes a whole function is modelled with `PyResult.exn`.
-/

inductive Json where
  | null : Json
  | bool : Bool → Json
  | num : Int → Json
  | str : String → Json
  | arr : List Json → Json
  | obj : List (String × Json) → Json

/-- Result of running a Python function: either a returned value or an
uncaught exception escaping the function (`PyResult.exn` carries the
exception description). -/
inductive PyResult (α : Type) where
  | ok : α → PyResult α
  | exn : String → PyResult α

mutual
/-- Structural equality of JSON values, modelling Python `==` on values loaded
by `json.load` (snapshot files are serialised with `sort_keys=True`, so object
key order is canonical and positional comparison of the key/value lists
coincides with Python dict equality). -/
def jsonEq : Json → Json → Bool
  | Json.null, Json.null => true
  | Json.bool a, Json.bool b => a == b
  | Json.num a, Json.num b => a == b
  | Json.str a, Json.str b => a == b
  | Json.arr a, Json.arr b => jsonEqArr a b
  | Json.obj a, Json.obj b => jsonEqObj a b
  | _, _ => false

def jsonEqArr : List Json → List Json → Bool
  | [], [] => true
  | a :: as, b :: bs => jsonEq a b && jsonEqArr as bs
  | _, _ => false

def jsonEqObj : List (String × Json) → List (String × Json) → Bool
  | [], [] => true
  | (k1, v1) :: as, (k2, v2) :: bs => k1 == k2 && jsonEq v1 v2 && jsonEqObj as bs
  | _, _ => false
end

/-- Python truthiness on JSON values: `None`, `False`, `0`, `""`, `[]` and
`{}` are falsy, everything else is truthy. -/
def pyFalsy : Json → Bool
  | Json.null => true
  | Json.bool b => !b
  | Json.num n => n == 0
  | Json.str s => s == ""
  | Json.arr l => l.isEmpty
  | Json.obj l => l.isEmpty

/-- Values Python can use as `dict` keys: lists and dicts are unhashable. -/
def pyHashable : Json → Bool
  | Json.arr _ => false
  | Json.obj _ => false
  | _ => true

/-- Field of a JSON object, `Json.null` when absent (total counterpart of
Python `dict.get`). -/
def jsonLookup (kvs : List (String × Json)) (k : String) : Json :=
  match kvs.lookup k with
  | some v => v
  | none => Json.null

/-- Python `d.get(k)`: `None` when the key is missing, `AttributeError` when
the receiver is not a dict. -/
def pyGet (j : Json) (k : String) : Except String Json :=
  match j with
  | Json.obj kvs => Except.ok (jsonLookup kvs k)
  | _ => Except.error ("AttributeError: object has no attribute get (" ++ k ++ ")")

/-- Python `j[k]` for a string key: `KeyError` when missing from a dict,
`TypeError` on non-dict receivers (including `None`, the shape that matters
for `fetch_trainings`). -/
def pySubscript (j : Json) (k : String) : Except String Json :=
  match j with
  | Json.obj kvs =>
    match kvs.lookup k with
    | some v => Except.ok v
    | none => Except.error ("KeyError: " ++ k)
  | Json.arr _ => Except.error "TypeError: list indices must be integers"
  | Json.str _ => Except.error "TypeError: string indices must be integers"
  | _ => Except.error "TypeError: NoneType object is not subscriptable"

/-- Python iteration `for x in j`: lists yield elements, strings yield
one-character strings, dicts yield their keys; other values raise
`TypeError`. -/
def pyIter (j : Json) : Except String (List Json) :=
  match j with
  | Json.arr l => Except.ok l
  | Json.str s => Except.ok (s.data.map (fun c => Json.str c.toString))
  | Json.obj kvs => Except.ok (kvs.map (fun kv => Json.str kv.1))
  | _ => Except.error "TypeError: object is not iterable"

def hasInfix (pat : List Char) : List Char → Bool
  | [] => pat.isEmpty
  | c :: t => pat.isPrefixOf (c :: t) || hasInfix pat t

/-- Substring test, modelling Python `pat in s` on strings. -/
def strContains (s pat : String) : Bool := hasInfix pat.data s.data

/-- Python membership `item in container`: element membership for lists, key
membership for dicts, substring for strings; non-containers raise. -/
def pyContains (container item : Json) : Except String Bool :=
  match container with
  | Json.arr l => Except.ok (l.any (fun x => jsonEq x item))
  | Json.obj kvs =>
    match item with
    | Json.str k => Except.ok (kvs.any (fun kv => kv.1 == k))
    | Json.arr _ => Except.error "TypeError: unhashable type used as dict key"
    | Json.obj _ => Except.error "TypeError: unhashable type used as dict key"
    | _ => Except.ok false
  | Json.str s =>
    match item with
    | Json.str p => Except.ok (strContains s p)
    | _ => Except.error "TypeError: in string requires string as left operand"
  | _ => Except.error "TypeError: argument is not iterable"

/-- Python `l[0]`: first element of a list or first character of a string,
`IndexError` when empty, `KeyError`/`TypeError` on other receivers. -/
def pyIndexZero (j : Json) : Except String Json :=
  match j with
  | Json.arr [] => Except.error "IndexError: list index out of range"
  | Json.arr (h :: _) => Except.ok h
  | Json.str s =>
    match s.data with
    | [] => Except.error "IndexError: string index out of range"
    | c :: _ => Except.ok (Json.str c.toString)
  | Json.obj _ => Except.error "KeyError: 0"
  | _ => Except.error "TypeError: object is not subscriptable"

/-- Order-preserving de-duplication, modelling `list(dict.fromkeys(l))`;
first occurrence wins. -/
def dedupKeepFirst : List Json → List Json → List Json
  | _, [] => []
  | seen, x :: t =>
    if seen.any (fun y => jsonEq y x) then dedupKeepFirst seen t
    else x :: dedupKeepFirst (x :: seen) t

/-- Python `list(dict.fromkeys(l))`, raising on unhashable elements. -/
def dictFromKeys (l : List Json) : Except String (List Json) :=
  if l.all pyHashable then Except.ok (dedupKeepFirst [] l)
  else Except.error "TypeError: unhashable type in dict.fromkeys"

mutual
/-- Python `repr` of a JSON value (used when formatting tuples into the
failure log). -/
def pyRepr : Json → String
  | Json.null => "None"
  | Json.bool true => "True"
  | Json.bool false => "False"
  | Json.num n => toString n
  | Json.str s => "\x27" ++ s ++ "\x27"
  | Json.arr l => "[" ++ pyReprArr l ++ "]"
  | Json.obj l => "\x7b" ++ pyReprObj l ++ "\x7d"

def pyReprArr : List Json → String
  | [] => ""
  | [x] => pyRepr x
  | x :: y :: t => pyRepr x ++ ", " ++ pyReprArr (y :: t)

def pyReprObj : List (String × Json) → String
  | [] => ""
  | [kv] => "\x27" ++ kv.1 ++ "\x27: " ++ pyRepr kv.2
  | kv :: kv2 :: t => "\x27" ++ kv.1 ++ "\x27: " ++ pyRepr kv.2 ++ ", " ++ pyReprObj (kv2 :: t)
end

/-- Python `str` of a JSON value: identity on strings, `repr` otherwise
(`str(True) = "True"`, `str(None) = "None"`). -/
def pyStr (j : Json) : String :=
  match j with
  | Json.str s => s
  | j => pyRepr j

/-- Python `s.split(sep)` for a one-character separator: `"".split(" ") = [""]`,
adjacent separators produce empty chunks. -/
def splitCharAux (sep : Char) : List Char → List Char → List String
  | [], cur => [String.mk cur.reverse]
  | c :: rest, cur =>
    if c == sep then String.mk cur.reverse :: splitCharAux sep rest []
    else splitCharAux sep rest (c :: cur)

def pySplit (s : String) (sep : Char) : List String := splitCharAux sep s.data []

/-- `path.split("/")[-1]`, as used by the result router to name success files. -/
def lastSeg (s : String) : String := (pySplit s '/').getLastD ""

/-- `translate_level` (script.py lines 104-118): fixed lookup from the source
level to the EOSC expertise level, defaulting to `advanced`; the `or` fallback
to `all` fires only for a falsy mapped value.  Looking a value up in a Python
dict raises `TypeError` when the value is unhashable, which the caller's
`except` turns into a mapping error. -/
def translate_level (level : Json) : Except String String :=
  if pyHashable level then
    let mapped :=
      match level with
      | Json.str "Introductory" => "tr_expertise_level-beginner"
      | Json.str "Any" => "tr_expertise_level-all"
      | Json.str "Intermediate" => "tr_expertise_level-intermediate"
      | Json.str "Advanced" => "tr_expertise_level-advanced"
      | _ => "tr_expertise_level-advanced"
    Except.ok (if mapped == "" then "tr_expertise_level-all" else mapped)
  else Except.error "TypeError: unhashable type used as dict key"

/-- Inner loop of the mandatory-field check (script.py lines 239-245): for a
dict-valued field, the first falsy inner value aborts with an
`is not set` message. -/
def contact_check (tj : String) : List (String × Json) → Option String
  | [] => none
  | (k, v) :: rest =>
    if pyFalsy v then some ("For " ++ tj ++ " the mandatory field " ++ k ++ " is not set")
    else contact_check tj rest

/-- Mandatory-field check (script.py lines 227-245): first falsy field aborts
with `is not set`; a non-falsy field equal to `[]` would abort with
`is empty`; a dict-valued field is checked entry-wise. -/
def check_mandatory_fields (tj : String) : List (String × Json) → Option String
  | [] => none
  | (name, v) :: rest =>
    if pyFalsy v then some ("For " ++ tj ++ " the mandatory field " ++ name ++ " is not set")
    else if jsonEq v (Json.arr []) then
      some ("For " ++ tj ++ " the mandatory field " ++ name ++ " is empty")
    else
      match v with
      | Json.obj kvs =>
        match contact_check tj kvs with
        | some m => some m
        | none => check_mandatory_fields tj rest
      | _ => check_mandatory_fields tj rest

/-- Comparison definition for claim C10: `check_mandatory_fields` with the
`field[1] == []` (`is empty`) branch deleted.  The claim states the branch is
unreachable, i.e. that this function and `check_mandatory_fields` agree on
every input. -/
def check_mandatory_fields_no_empty (tj : String) : List (String × Json) → Option String
  | [] => none
  | (name, v) :: rest =>
    if pyFalsy v then some ("For " ++ tj ++ " the mandatory field " ++ name ++ " is not set")
    else
      match v with
      | Json.obj kvs =>
        match contact_check tj kvs with
        | some m => some m
        | none => check_mandatory_fields_no_empty tj rest
      | _ => check_mandatory_fields_no_empty tj rest

/-- Learning-outcomes derivation (script.py lines 168-172): a truthy
`objectives` value is copied element-wise, anything falsy (absent, `[]`, …)
is replaced by the sentinel list. -/
def compute_learningOutcomes (objectives : Json) : Except String (List Json) :=
  if pyFalsy objectives then Except.ok [Json.str "No learning outcomes available"]
  else pyIter objectives

def galaxyBase : String := "https://training.galaxyproject.org/training-material"

/-- Body of the `try` block of `training_to_eosc_json` (script.py lines
129-249) plus the final `data` construction (lines 251-286), in source order.
`Except.error e` models a Python exception reaching the `except` handler;
`Sum.inl msg` models the early `return` of a mandatory-field failure;
`Sum.inr data` is the successfully mapped record. -/
def mapper_core (training_json : String) (training : Json) : Except String (Sum String Json) := do
  let id_ ← pyGet training "id"
  let title ← pyGet training "tutorial_name"
  let contributors ← pyGet training "contributors"
  let contributions ← pyGet training "contributions"
  let useAuthorship ←
    if pyFalsy contributions then pure false
    else pyContains contributions (Json.str "authorship")
  let authors ←
    if useAuthorship then do
      let author_ids ← pyGet contributions "authorship"
      let cs ← pyIter contributors
      cs.foldlM (fun acc contributor => do
        let cid ← pyGet contributor "id"
        let b ← pyContains author_ids cid
        if b then do
          let n ← pyGet contributor "name"
          pure (acc ++ [n])
        else pure acc) ([] : List Json)
    else do
      let cs ← pyIter contributors
      cs.mapM (fun contributor => pyGet contributor "name")
  let authors ← dictFromKeys authors
  let urlJ ← pyGet training "url"
  let webpage ←
    match urlJ with
    | Json.str u => pure (galaxyBase ++ u)
    | _ => Except.error "TypeError: can only concatenate str to str"
  let license := "https://spdx.org/licenses/CC-BY-4.0"
  let access_rights := "tr_access_right-open_access"
  let version_date := "2024-01-01"
  let targetGroups := [Json.str "target_user-researchers", Json.str "target_user-students"]
  let objectives ← pyGet training "objectives"
  let learningOutcomes ← compute_learningOutcomes objectives
  let levelJ ← pyGet training "level"
  let expertiseLevel ← translate_level levelJ
  let duration ← pyGet training "time_estimation"
  let languages := [Json.str "en"]
  let geographicalAvailabilities := [Json.str "WW"]
  let scientificDomains :=
    [Json.obj [("scientificDomain", Json.str "scientific_domain-generic"),
               ("scientificSubdomain", Json.str "scientific_subdomain-generic-generic")]]
  let main_contributor ← pyIndexZero contributors
  let nameJ ← pyGet main_contributor "name"
  let main_name ←
    match nameJ with
    | Json.str s => pure (pySplit s ' ')
    | _ => Except.error "AttributeError: object has no attribute split"
  let firstName ←
    match main_name with
    | [] => Except.error "IndexError: list index out of range"
    | h :: _ => pure h
  let lastName ←
    match main_name with
    | [] => Except.error "IndexError: list index out of range"
    | h :: t => pure ((h :: t).getLastD h)
  let emailJ ← pyGet main_contributor "email"
  let main_email := if pyFalsy emailJ then Json.str "place_holder@uni-freiburg.com" else emailJ
  let contact := Json.obj
    [("firstName", Json.str firstName), ("lastName", Json.str lastName), ("email", main_email)]
  let mandatory_fields : List (String × Json) :=
    [("id", id_), ("title", title), ("resourceOrganisation", Json.str "uni-freiburg"),
     ("authors", Json.arr authors), ("url", Json.str webpage), ("license", Json.str license),
     ("accessRights", Json.str access_rights), ("versionDate", Json.str version_date),
     ("targetGroups", Json.arr targetGroups), ("learningOutcomes", Json.arr learningOutcomes),
     ("expertiseLevel", Json.str expertiseLevel), ("languages", Json.arr languages),
     ("geographicalAvailabilities", Json.arr geographicalAvailabilities),
     ("scientificDomains", Json.arr scientificDomains), ("contact", contact)]
  match check_mandatory_fields training_json mandatory_fields with
  | some msg => pure (Sum.inl msg)
  | none =>
    pure (Sum.inr (Json.obj
      [("id", id_), ("title", title), ("resourceOrganisation", Json.str "uni-freiburg"),
       ("authors", Json.arr authors), ("url", Json.str webpage), ("license", Json.str license),
       ("accessRights", Json.str access_rights), ("versionDate", Json.str version_date),
       ("targetGroups", Json.arr targetGroups), ("learningOutcomes", Json.arr learningOutcomes),
       ("expertiseLevel", Json.str expertiseLevel), ("duration", duration),
       ("languages", Json.arr languages),
       ("geographicalAvailabilities", Json.arr geographicalAvailabilities),
       ("scientificDomains", Json.arr scientificDomains), ("contact", contact)]))

/-- `training_to_eosc_json` (script.py lines 121-286).  The file read and
`json.load` (lines 127-128) sit OUTSIDE the `try` block, so a read or parse
failure escapes as an exception (`PyResult.exn`); `fs` models the filesystem,
with `none` for a missing or unparsable file.  Everything after the parse is
the `try` body: an exception there becomes the `there was an error` tuple. -/
def training_to_eosc_json (fs : String → Option Json) (training_json : String) :
    PyResult (Json × String) :=
  match fs training_json with
  | none => PyResult.exn ("OSError: cannot read or parse " ++ training_json)
  | some training =>
    match mapper_core training_json training with
    | Except.error e =>
      PyResult.ok (Json.str ("For " ++ training_json ++ " there was an error: " ++ e), training_json)
    | Except.ok (Sum.inl msg) => PyResult.ok (Json.str msg, training_json)
    | Except.ok (Sum.inr data) => PyResult.ok (data, training_json)

/-- Result tuple of `validate_eosc_json` (script.py lines 289-305): the
conversion-error path returns a 2-tuple `(message, training)`, the two
network paths return 3-tuples `(first, training, payload)` where `first` is
either the `API error` message or the endpoint's JSON response body. -/
inductive ValidationOutcome where
  | pair : Json → String → ValidationOutcome
  | triple : Json → String → Json → ValidationOutcome

def outFirst : ValidationOutcome → Json
  | ValidationOutcome.pair a _ => a
  | ValidationOutcome.triple a _ _ => a

def outTraining : ValidationOutcome → String
  | ValidationOutcome.pair _ b => b
  | ValidationOutcome.triple _ b _ => b

/-- Python `repr` of the outcome tuple, as interpolated by
`f.write(f"{training}\n")` into the failure log. -/
def outcomeRepr : ValidationOutcome → String
  | ValidationOutcome.pair a b => "(" ++ pyRepr a ++ ", \x27" ++ b ++ "\x27)"
  | ValidationOutcome.triple a b c =>
    "(" ++ pyRepr a ++ ", \x27" ++ b ++ "\x27, " ++ pyRepr c ++ ")"

/-- `validate_eosc_json` (script.py lines 289-305).  `net` is the remote
validation endpoint, mapping the posted payload to an HTTP status, the
response body parsed as JSON, and the raw response text.  A non-dict payload
(a conversion-error message) is returned wrapped in the
`Json conversion error` prefix without touching the network; the second
component of the result records whether a network call was made. -/
def validate_eosc_json (net : Json → Nat × Json × String) (eosc_json : Json × String) :
    ValidationOutcome × Bool :=
  let payload := eosc_json.1
  let training := eosc_json.2
  match payload with
  | Json.obj kvs =>
    let r := net (Json.obj kvs)
    if r.1 ≠ 200 then
      (ValidationOutcome.triple (Json.str ("API error: \n" ++ r.2.2)) training (Json.obj kvs), true)
    else
      (ValidationOutcome.triple r.2.1 training (Json.obj kvs), true)
  | _ =>
    (ValidationOutcome.pair (Json.str ("Json conversion error: \n" ++ pyStr payload)) training, false)

/-- State of the two result stores and the failure log: `successNew` /
`successUpdated` are the files written into
`validated_eosc_jsons/{new,updated}_trainings` (name, serialised payload);
`failNew` / `failUpdated` record the source paths copied into
`upload_failures/{new,updated}_trainings`; `log` is `upload_failures.txt`,
one entry per appended line. -/
structure RouteState where
  successNew : List (String × Json)
  successUpdated : List (String × Json)
  failNew : List String
  failUpdated : List String
  log : List String

inductive Cat where
  | newT : Cat
  | updatedT : Cat

def succList : Cat → RouteState → List (String × Json)
  | Cat.newT, s => s.successNew
  | Cat.updatedT, s => s.successUpdated

def failList : Cat → RouteState → List String
  | Cat.newT, s => s.failNew
  | Cat.updatedT, s => s.failUpdated

def otherCat : Cat → Cat
  | Cat.newT => Cat.updatedT
  | Cat.updatedT => Cat.newT

def addSuccess (cat : Cat) (name : String) (payload : Json) (s : RouteState) : RouteState :=
  match cat with
  | Cat.newT => { s with successNew := s.successNew ++ [(name, payload)] }
  | Cat.updatedT => { s with successUpdated := s.successUpdated ++ [(name, payload)] }

def addFail (cat : Cat) (path line : String) (s : RouteState) : RouteState :=
  match cat with
  | Cat.newT => { s with failNew := s.failNew ++ [path], log := s.log ++ [line] }
  | Cat.updatedT => { s with failUpdated := s.failUpdated ++ [path], log := s.log ++ [line] }

/-- Loop body of `process_validated_trainings` (script.py lines 313-326 for
the new category, 328-341 for the updated category): if `str(training[0])`
equals `"True"`, the payload `training[2]` is written into the category's
success folder under the last path segment of `training[1]`; otherwise the
source file `training[1]` is copied into the category's failure folder and
one line with the full tuple is appended to `upload_failures.txt`.  Accessing
`training[2]` on a 2-tuple would raise `IndexError`. -/
def route_one (cat : Cat) (o : ValidationOutcome) (s : RouteState) : PyResult RouteState :=
  if pyStr (outFirst o) == "True" then
    match o with
    | ValidationOutcome.pair _ _ => PyResult.exn "IndexError: tuple index out of range"
    | ValidationOutcome.triple _ training payload =>
      PyResult.ok (addSuccess cat (lastSeg training) payload s)
  else
    PyResult.ok (addFail cat (outTraining o) (outcomeRepr o) s)

def route_list (cat : Cat) : List ValidationOutcome → RouteState → PyResult RouteState
  | [], s => PyResult.ok s
  | o :: t, s =>
    match route_one cat o s with
    | PyResult.exn e => PyResult.exn e
    | PyResult.ok s2 => route_list cat t s2

/-- `process_validated_trainings` (script.py lines 308-341): route all
new-category outcomes, then all updated-category outcomes. -/
def process_validated_trainings (validated_new validated_updated : List ValidationOutcome)
    (s : RouteState) : PyResult RouteState :=
  match route_list Cat.newT validated_new s with
  | PyResult.exn e => PyResult.exn e
  | PyResult.ok s2 => route_list Cat.updatedT validated_updated s2

/-- A snapshot directory tree `topics/<topic>/<training file>`: topics in
`os.listdir` order, each with its training files (name and parsed JSON
content). -/
abbrev Snapshot : Type := List (String × List (String × Json))

def pathOf (topic training : String) : String :=
  "./topics/" ++ topic ++ "/" ++ training

/-- Existence of `old_topics/<topic>/<training>` and its parsed content. -/
def oldLookup (old : Snapshot) (topic training : String) : Option Json :=
  match old.lookup topic with
  | none => none
  | some ms => ms.lookup training

/-- Loop body of `compare_training_material` (script.py lines 74-99) for one
training file: diff against the previous snapshot, then (independently)
re-queue the file if its name sits in a previous-run failure bucket. -/
def compareStep (old : Snapshot) (failNew failUpd : List String) (topic training : String)
    (j : Json) (acc : List String × List String) : List String × List String :=
  let acc1 :=
    match oldLookup old topic training with
    | some oldJ => if jsonEq j oldJ then acc else (acc.1, acc.2 ++ [pathOf topic training])
    | none => (acc.1 ++ [pathOf topic training], acc.2)
  let acc2 :=
    if training ∈ failNew then (acc1.1 ++ [pathOf topic training], acc1.2) else acc1
  if training ∈ failUpd then (acc2.1, acc2.2 ++ [pathOf topic training]) else acc2

def compareTopic (old : Snapshot) (failNew failUpd : List String) (topic : String) :
    List (String × Json) → (List String × List String) → List String × List String
  | [], acc => acc
  | (tr, j) :: rest, acc =>
    compareTopic old failNew failUpd topic rest (compareStep old failNew failUpd topic tr j acc)

def compareAll (old : Snapshot) (failNew failUpd : List String) :
    Snapshot → (List String × List String) → List String × List String
  | [], acc => acc
  | (t, ms) :: rest, acc =>
    compareAll old failNew failUpd rest (compareTopic old failNew failUpd t ms acc)

/-- `compare_training_material` (script.py lines 66-101).  `cur` is the fresh
`./topics` tree, `old` the previous `./old_topics` tree, `failNew` and
`failUpd` the file names present in `./old_upload_failures/new_trainings` and
`./old_upload_failures/updated_trainings`.  Returns the
`{"new_trainings": ..., "updated_trainings": ...}` path lists. -/
def compare_training_material (cur old : Snapshot) (failNew failUpd : List String) :
    List String × List String :=
  compareAll old failNew failUpd cur ([], [])

/-- The files of the current snapshot as a path-indexed association list
(what `training_to_eosc_json` finds when it opens a ChangeSet path). -/
def snapshotFiles (cur : Snapshot) : List (String × Json) :=
  match cur with
  | [] => []
  | (t, ms) :: rest => ms.map (fun tj => (pathOf t tj.1, tj.2)) ++ snapshotFiles rest

def snapshotFS (cur : Snapshot) : String → Option Json :=
  fun p => (snapshotFiles cur).lookup p

def pyMapM (f : α → PyResult β) : List α → PyResult (List β)
  | [] => PyResult.ok []
  | a :: t =>
    match f a with
    | PyResult.exn e => PyResult.exn e
    | PyResult.ok b =>
      match pyMapM f t with
      | PyResult.exn e => PyResult.exn e
      | PyResult.ok bs => PyResult.ok (b :: bs)

def initRouteState : RouteState :=
  { successNew := [], successUpdated := [], failNew := [], failUpdated := [], log := [] }

/-- The per-record pipeline of `__main__` (script.py lines 394-411), starting
from the fetched snapshots: compute the ChangeSet, map every listed path,
validate every mapped record, route every outcome.  The workspace starts with
the stores and the (fresh) failure log empty, as `setup_topics_folder`
leaves them. -/
def run_pipeline (cur old : Snapshot) (failNew failUpd : List String)
    (net : Json → Nat × Json × String) : PyResult RouteState :=
  let cs := compare_training_material cur old failNew failUpd
  match pyMapM (training_to_eosc_json (snapshotFS cur)) cs.1 with
  | PyResult.exn e => PyResult.exn e
  | PyResult.ok newMapped =>
    match pyMapM (training_to_eosc_json (snapshotFS cur)) cs.2 with
    | PyResult.exn e => PyResult.exn e
    | PyResult.ok updMapped =>
      let vn := newMapped.map (fun m => (validate_eosc_json net m).1)
      let vu := updMapped.map (fun m => (validate_eosc_json net m).1)
      process_validated_trainings vn vu initRouteState

def topicsUrl : String :=
  "https://training.galaxyproject.org/training-material/api/topics.json"

def topicUrl (t : String) : String :=
  "https://training.galaxyproject.org/training-material/api/topics/" ++ t ++ ".json"

/-- `get_api_data` (script.py lines 8-18): returns the response JSON, or
`None` (modelled `none`) after printing the error when the request or the
status check raises. -/
def get_api_data (api : String → Option Json) (api_url : String) : Option Json := api api_url

def fetchItem (training : Json) : PyResult (String × Json) :=
  match pySubscript training "topic_name" with
  | Except.error e => PyResult.exn e
  | Except.ok tn =>
    match pySubscript training "tutorial_name" with
    | Except.error e => PyResult.exn e
    | Except.ok tun => PyResult.ok (pyStr tn ++ "_" ++ pyStr tun ++ ".json", training)

/-- Body of `fetch_trainings`'s per-topic loop (script.py lines 55-63):
subscripting the result of a failed `get_api_data` call (`None["materials"]`)
raises `TypeError` and escapes `fetch_trainings`. -/
def fetch_one_topic (api : String → Option Json) (topic : String) :
    PyResult (List (String × Json)) :=
  match get_api_data api (topicUrl topic) with
  | none => PyResult.exn "TypeError: NoneType object is not subscriptable"
  | some tj =>
    match pySubscript tj "materials" with
    | Except.error e => PyResult.exn e
    | Except.ok materials =>
      match pyIter materials with
      | Except.error e => PyResult.exn e
      | Except.ok items => pyMapM fetchItem items

/-- `fetch_trainings` (script.py lines 47-63), returning the snapshot it
writes under `./topics`.  A failed topic-list fetch makes the `for` loop
iterate over `None` (`TypeError`); a failed per-topic fetch raises inside
`fetch_one_topic`. -/
def fetch_trainings (api : String → Option Json) : PyResult Snapshot :=
  match get_api_data api topicsUrl with
  | none => PyResult.exn "TypeError: NoneType object is not iterable"
  | some topicsJson =>
    match pyIter topicsJson with
    | Except.error e => PyResult.exn e
    | Except.ok topics =>
      pyMapM (fun tj =>
        match fetch_one_topic api (pyStr tj) with
        | PyResult.exn e => PyResult.exn e
        | PyResult.ok ms => PyResult.ok (pyStr tj, ms)) topics

/-- Total number of files written into the two stores in a run. -/
def totalWrites (s : RouteState) : Nat :=
  s.successNew.length + s.successUpdated.length + s.failNew.length + s.failUpdated.length

/-- Number of files written into the failure store. -/
def failCount (s : RouteState) : Nat :=
  s.failNew.length + s.failUpdated.length

/-- Number of writes (success-store files plus failure-store copies) whose
record identity (file name) is `id`. -/
def writesFor (s : RouteState) (id : String) : Nat :=
  (s.successNew.countP (fun x => x.1 == id)) +
  (s.successUpdated.countP (fun x => x.1 == id)) +
  (s.failNew.countP (fun p => lastSeg p == id)) +
  (s.failUpdated.countP (fun p => lastSeg p == id))

/-- An outcome the router handles without raising, producing exactly one
write, and one log line exactly when the write went to the failure store. -/
def Routable (o : ValidationOutcome) : Prop :=
  ∀ (cat : Cat) (s : RouteState), ∃ s2,
    route_one cat o s = PyResult.ok s2 ∧
    totalWrites s2 = totalWrites s + 1 ∧
    s2.log.length + failCount s = s.log.length + failCount s2

/-- The spec's C7 scenario record, exactly as the claim lists it (note: it has
no `id` field). -/
def sampleRecordNoId : Json := Json.obj
  [("topic_name", Json.str "admin"), ("tutorial_name", Json.str "intro"),
   ("contributors", Json.arr [Json.obj [("name", Json.str "Jane Doe"), ("email", Json.str "j@x.org")]]),
   ("objectives", Json.arr [Json.str "Learn X"]), ("level", Json.str "Introductory"),
   ("time_estimation", Json.str "1H"), ("url", Json.str "/admin/intro")]

/-- The same record with a non-falsy `id` added. -/
def sampleRecordWithId : Json := Json.obj
  [("id", Json.str "admin_intro"), ("topic_name", Json.str "admin"),
   ("tutorial_name", Json.str "intro"),
   ("contributors", Json.arr [Json.obj [("name", Json.str "Jane Doe"), ("email", Json.str "j@x.org")]]),
   ("objectives", Json.arr [Json.str "Learn X"]), ("level", Json.str "Introductory"),
   ("time_estimation", Json.str "1H"), ("url", Json.str "/admin/intro")]

/-- A well-formed record whose `contributors` list is empty. -/
def emptyContribRecord : Json := Json.obj
  [("id", Json.str "x"), ("tutorial_name", Json.str "t"), ("contributors", Json.arr []),
   ("objectives", Json.arr [Json.str "o"]), ("level", Json.str "Any"),
   ("time_estimation", Json.str "1H"), ("url", Json.str "/a/b")]

/-- `sampleRecordWithId` with the `objectives` field removed. -/
def noObjectivesRecord : Json := Json.obj
  [("id", Json.str "admin_intro"), ("topic_name", Json.str "admin"),
   ("tutorial_name", Json.str "intro"),
   ("contributors", Json.arr [Json.obj [("name", Json.str "Jane Doe"), ("email", Json.str "j@x.org")]]),
   ("level", Json.str "Introductory"),
   ("time_estimation", Json.str "1H"), ("url", Json.str "/admin/intro")]

/-- A validation endpoint that accepts every payload. -/
def acceptAllNet : Json → Nat × Json × String := fun _ => (200, Json.bool true, "ok")

/-- A validation endpoint answering 200 with the string verdict `"True"`. -/
def verdictTrueNet : Json → Nat × Json × String := fun _ => (200, Json.str "True", "True")

/-- A catalog API where the topic list succeeds with one topic `admin` but
the per-topic materials request fails (request exception, `None` result). -/
def failingTopicApi : String → Option Json :=
  fun u => if u == topicsUrl then some (Json.arr [Json.str "admin"]) else none

/-- A one-record current snapshot; counterexamples pair it with a previous
failure bucket that also names its only training file. -/
def dupCur : Snapshot := [("a", [("x.json", Json.num 1)])]

theorem exbind_ok (a : α) (f : α → Except String β) : (Except.ok a >>= f) = f a := rfl

theorem exbind_err (e : String) (f : α → Except String β) :
    ((Except.error e : Except String α) >>= f) = Except.error e := rfl

theorem jsonEq_arr_nil_eq_false (v : Json) (h : pyFalsy v = false) :
    jsonEq v (Json.arr []) = false := by
  cases v with
  | arr l =>
    cases l with
    | nil => simp [pyFalsy] at h
    | cons a as => rfl
  | null => rfl
  | bool b => rfl
  | num n => rfl
  | str s => rfl
  | obj l => rfl

/-- Helper: if a file parses, `training_to_eosc_json` returns a tuple and no
exception escapes (everything after the parse runs inside the `try`). -/
theorem mapper_total (fs : String → Option Json) (p : String) (t : Json) (h : fs p = some t) :
    ∃ r, training_to_eosc_json fs p = PyResult.ok r := by
  cases hm : mapper_core p t with
  | error e =>
    exact ⟨(Json.str ("For " ++ p ++ " there was an error: " ++ e), p),
      by simp [training_to_eosc_json, h, hm]⟩
  | ok v =>
    cases v with
    | inl m => exact ⟨(Json.str m, p), by simp [training_to_eosc_json, h, hm]⟩
    | inr d => exact ⟨(d, p), by simp [training_to_eosc_json, h, hm]⟩

/-- C10: in the mandatory-field check, the `field[1] == []` (`is empty`)
branch is unreachable: deleting it (`check_mandatory_fields_no_empty`) does
not change the function, because any empty list is already caught by the
preceding falsiness test. -/
theorem c10_empty_branch_unreachable (tj : String) (fields : List (String × Json)) :
    check_mandatory_fields tj fields = check_mandatory_fields_no_empty tj fields := by
  induction fields with
  | nil => rfl
  | cons f rest ih =>
    obtain ⟨name, v⟩ := f
    cases hf : pyFalsy v with
    | true => simp [check_mandatory_fields, check_mandatory_fields_no_empty, hf]
    | false =>
      have hE : jsonEq v (Json.arr []) = false := jsonEq_arr_nil_eq_false v hf
      cases v with
      | obj kvs =>
        simp only [check_mandatory_fields, check_mandatory_fields_no_empty, hf, hE,
          Bool.false_eq_true, if_false]
        cases contact_check tj kvs <;> simp [ih]
      | null => simp [pyFalsy] at hf
      | bool b =>
        simp only [check_mandatory_fields, check_mandatory_fields_no_empty, hf, hE,
          Bool.false_eq_true, if_false]
        exact ih
      | num n =>
        simp only [check_mandatory_fields, check_mandatory_fields_no_empty, hf, hE,
          Bool.false_eq_true, if_false]
        exact ih
      | str s =>
        simp only [check_mandatory_fields, check_mandatory_fields_no_empty, hf, hE,
          Bool.false_eq_true, if_false]
        exact ih
      | arr l =>
        simp only [check_mandatory_fields, check_mandatory_fields_no_empty, hf, hE,
          Bool.false_eq_true, if_false]
        exact ih

/-- C8: an absent (`None`) or empty-list `objectives` value yields the
sentinel learning-outcomes list, the substituted value passes the
mandatory-field check, and on a full record without `objectives` the mapper
succeeds with the sentinel in the output. -/
theorem c8_missing_objectives_sentinel (objectives : Json) (tj : String)
    (h : objectives = Json.null ∨ objectives = Json.arr []) :
    compute_learningOutcomes objectives = Except.ok [Json.str "No learning outcomes available"] ∧
    check_mandatory_fields tj
      [("learningOutcomes", Json.arr [Json.str "No learning outcomes available"])] = none ∧
    (∃ d, training_to_eosc_json (fun _ => some noObjectivesRecord) "./topics/admin/admin_intro.json" =
        PyResult.ok (Json.obj d, "./topics/admin/admin_intro.json") ∧
      d.lookup "learningOutcomes" = some (Json.arr [Json.str "No learning outcomes available"])) := by
  rcases h with rfl | rfl <;> exact ⟨rfl, rfl, ⟨_, rfl, rfl⟩⟩

theorem c8_missing_objectives_sentinel_witness :
    compute_learningOutcomes Json.null = Except.ok [Json.str "No learning outcomes available"] ∧
    check_mandatory_fields "p"
      [("learningOutcomes", Json.arr [Json.str "No learning outcomes available"])] = none :=
  ⟨(c8_missing_objectives_sentinel Json.null "p" (Or.inl rfl)).1,
   (c8_missing_objectives_sentinel Json.null "p" (Or.inl rfl)).2.1⟩

/-- C4 (counterexample): a MappingError input is NOT returned unchanged — the
message comes back wrapped in the `Json conversion error` prefix. -/
theorem c4_counterexample :
    validate_eosc_json acceptAllNet (Json.str "boom", "p") =
      (ValidationOutcome.pair (Json.str "Json conversion error: \nboom") "p", false) ∧
    ("Json conversion error: \nboom" : String) ≠ "boom" :=
  ⟨rfl, by decide⟩

/-- C4 (amended): a MappingError input (non-dict payload) produces a 2-tuple
with the same identity and the message prefixed by `Json conversion error`,
and no network call is made. -/
theorem c4_wrapped_passthrough (net : Json → Nat × Json × String)
    (payload : Json) (training : String) (h : ∀ kvs, payload ≠ Json.obj kvs) :
    validate_eosc_json net (payload, training) =
      (ValidationOutcome.pair (Json.str ("Json conversion error: \n" ++ pyStr payload)) training,
       false) := by
  cases payload with
  | obj kvs => exact absurd rfl (h kvs)
  | null => rfl
  | bool b => rfl
  | num n => rfl
  | str s => rfl
  | arr l => rfl

theorem c4_wrapped_passthrough_witness :
    validate_eosc_json acceptAllNet (Json.str "boom", "p") =
      (ValidationOutcome.pair (Json.str ("Json conversion error: \n" ++ pyStr (Json.str "boom"))) "p",
       false) :=
  c4_wrapped_passthrough acceptAllNet (Json.str "boom") "p" (fun _ hh => Json.noConfusion hh)

/-- C2: with a successful topic-list fetch and a failed materials fetch for
the single topic, `fetch_trainings` raises `TypeError` (subscripting `None`)
and the run aborts instead of continuing with zero records for that topic. -/
theorem c2_single_topic_failure_crashes :
    fetch_trainings failingTopicApi = PyResult.exn "TypeError: NoneType object is not subscriptable" :=
  rfl

/-- C3 (counterexample): a file that cannot be read or parsed makes
`training_to_eosc_json` raise past its boundary (the `open`/`json.load` sits
before the `try` block), instead of producing a MappingError tuple. -/
theorem c3_counterexample :
    training_to_eosc_json (fun _ => none) "p" = PyResult.exn "OSError: cannot read or parse p" :=
  rfl

/-- C3 (amended): once the record file has been read and parsed, no exception
escapes `training_to_eosc_json`: every exception inside the mapping body is
caught and converted into a returned tuple. -/
theorem c3_no_exception_after_parse (fs : String → Option Json) (p : String) (t : Json)
    (h : fs p = some t) : ∃ r, training_to_eosc_json fs p = PyResult.ok r :=
  mapper_total fs p t h

theorem c3_no_exception_after_parse_witness :
    ∃ r, training_to_eosc_json (fun _ => some Json.null) "p" = PyResult.ok r :=
  c3_no_exception_after_parse (fun _ => some Json.null) "p" Json.null rfl

/-- C7 (counterexample): on the spec's scenario record (which has no `id`
field) the mapper does not succeed — it returns the `id is not set`
MappingError. -/
theorem c7_counterexample :
    training_to_eosc_json (fun _ => some sampleRecordNoId) "./topics/admin/admin_intro.json" =
      PyResult.ok
        (Json.str "For ./topics/admin/admin_intro.json the mandatory field id is not set",
         "./topics/admin/admin_intro.json") :=
  rfl

/-- C7 (amended): with a non-falsy `id` added to the scenario record, the
mapping succeeds and the output carries exactly the claimed field values. -/
theorem c7_scenario_mapping :
    ∃ d, training_to_eosc_json (fun _ => some sampleRecordWithId) "./topics/admin/admin_intro.json" =
        PyResult.ok (Json.obj d, "./topics/admin/admin_intro.json") ∧
      d.lookup "expertiseLevel" = some (Json.str "tr_expertise_level-beginner") ∧
      d.lookup "authors" = some (Json.arr [Json.str "Jane Doe"]) ∧
      d.lookup "contact" = some (Json.obj
        [("firstName", Json.str "Jane"), ("lastName", Json.str "Doe"),
         ("email", Json.str "j@x.org")]) ∧
      d.lookup "url" = some (Json.str (galaxyBase ++ "/admin/intro")) := by
  refine ⟨_, rfl, rfl, rfl, rfl, rfl⟩

/-- C5 (counterexample): a training that is new (absent from the previous
snapshot) and also sits in the previous run's new-trainings failure bucket is
appended to `new_trainings` twice — the ChangeSet is not a partition. -/
theorem c5_counterexample :
    compare_training_material dupCur [] ["x.json"] [] =
      (["./topics/a/x.json", "./topics/a/x.json"], []) ∧
    (compare_training_material dupCur [] ["x.json"] []).1.count "./topics/a/x.json" = 2 :=
  ⟨rfl, rfl⟩

theorem expure (a : α) : (pure a : Except String α) = Except.ok a := rfl

theorem mapper_core_empty_contributors (p : String) (kvs : List (String × Json))
    (hc : kvs.lookup "contributors" = some (Json.arr [])) :
    ∃ e, mapper_core p (Json.obj kvs) = Except.error e := by
  have hjl : jsonLookup kvs "contributors" = Json.arr [] := by simp [jsonLookup, hc]
  simp only [mapper_core, pyGet, hjl, exbind_ok, exbind_err, expure]
  cases hb : pyFalsy (jsonLookup kvs "contributions") with
  | true =>
    simp only [hb, if_true, exbind_ok, expure, reduceIte, Bool.false_eq_true, if_false,
      pyIter, List.mapM_nil, List.foldlM_nil, dictFromKeys, List.all_nil, dedupKeepFirst,
      exbind_err]
    cases hu : jsonLookup kvs "url" with
    | str u =>
      cases hlo : compute_learningOutcomes (jsonLookup kvs "objectives") with
      | error e => exact ⟨e, by simp only [exbind_err, exbind_ok, if_true]⟩
      | ok lo =>
        cases hel : translate_level (jsonLookup kvs "level") with
        | error e => exact ⟨e, by simp only [exbind_ok, exbind_err, if_true]⟩
        | ok el =>
          exact ⟨"IndexError: list index out of range",
            by simp only [exbind_ok, exbind_err, pyIndexZero, if_true]⟩
    | null => exact ⟨_, rfl⟩
    | bool b => exact ⟨_, rfl⟩
    | num n => exact ⟨_, rfl⟩
    | arr l => exact ⟨_, rfl⟩
    | obj l => exact ⟨_, rfl⟩
  | false =>
    simp only [hb, Bool.false_eq_true, if_false, reduceIte, exbind_ok, expure]
    cases hpc : pyContains (jsonLookup kvs "contributions") (Json.str "authorship") with
    | error e => exact ⟨e, by simp only [exbind_err, exbind_ok, if_true]⟩
    | ok b =>
      cases b with
      | false =>
        simp only [exbind_ok, Bool.false_eq_true, if_false, reduceIte, pyIter,
          List.mapM_nil, dictFromKeys, List.all_nil, dedupKeepFirst, expure, exbind_err]
        cases hu : jsonLookup kvs "url" with
        | str u =>
          cases hlo : compute_learningOutcomes (jsonLookup kvs "objectives") with
          | error e => exact ⟨e, by simp only [exbind_err, exbind_ok, if_true]⟩
          | ok lo =>
            cases hel : translate_level (jsonLookup kvs "level") with
            | error e => exact ⟨e, by simp only [exbind_ok, exbind_err, if_true]⟩
            | ok el =>
              exact ⟨"IndexError: list index out of range",
                by simp only [exbind_ok, exbind_err, pyIndexZero, if_true]⟩
        | null => exact ⟨_, rfl⟩
        | bool b => exact ⟨_, rfl⟩
        | num n => exact ⟨_, rfl⟩
        | arr l => exact ⟨_, rfl⟩
        | obj l => exact ⟨_, rfl⟩
      | true =>
        simp only [exbind_ok, if_true, reduceIte]
        cases hshape : jsonLookup kvs "contributions" with
        | obj kvs2 =>
          simp only [exbind_ok, pyIter, List.foldlM_nil, dictFromKeys, List.all_nil,
            dedupKeepFirst, expure, exbind_err]
          cases hu : jsonLookup kvs "url" with
          | str u =>
            cases hlo : compute_learningOutcomes (jsonLookup kvs "objectives") with
            | error e => exact ⟨e, by simp only [exbind_err, exbind_ok, if_true]⟩
            | ok lo =>
              cases hel : translate_level (jsonLookup kvs "level") with
              | error e => exact ⟨e, by simp only [exbind_ok, exbind_err, if_true]⟩
              | ok el =>
                exact ⟨"IndexError: list index out of range",
                  by simp only [exbind_ok, exbind_err, pyIndexZero, if_true]⟩
          | null => exact ⟨_, rfl⟩
          | bool b => exact ⟨_, rfl⟩
          | num n => exact ⟨_, rfl⟩
          | arr l => exact ⟨_, rfl⟩
          | obj l => exact ⟨_, rfl⟩
        | null => exact ⟨_, rfl⟩
        | bool b2 => exact ⟨_, rfl⟩
        | num n => exact ⟨_, rfl⟩
        | str s => exact ⟨_, rfl⟩
        | arr l => exact ⟨_, rfl⟩

/-- C6 (counterexample): an empty contributors list yields a MappingError
carrying the IndexError description from `contributors[0]` — a message that
does not mention the `authors` field at all (the authors mandatory-field
check is never reached). -/
theorem c6_counterexample :
    training_to_eosc_json (fun _ => some emptyContribRecord) "p" =
      PyResult.ok (Json.str "For p there was an error: IndexError: list index out of range", "p") ∧
    strContains "For p there was an error: IndexError: list index out of range" "authors" = false :=
  ⟨rfl, rfl⟩

/-- C6 (amended): a record whose contributors list is empty always produces a
caught-exception MappingError tuple (the `there was an error` form), and no
exception escapes the mapper. -/
theorem c6_empty_contributors_mapping_error (fs : String → Option Json) (p : String)
    (kvs : List (String × Json)) (h : fs p = some (Json.obj kvs))
    (hc : kvs.lookup "contributors" = some (Json.arr [])) :
    ∃ e, training_to_eosc_json fs p =
      PyResult.ok (Json.str ("For " ++ p ++ " there was an error: " ++ e), p) := by
  obtain ⟨e, he⟩ := mapper_core_empty_contributors p kvs hc
  exact ⟨e, by simp [training_to_eosc_json, h, he]⟩

theorem c6_empty_contributors_mapping_error_witness :
    ∃ e, training_to_eosc_json (fun _ => some emptyContribRecord) "p" =
      PyResult.ok (Json.str ("For " ++ "p" ++ " there was an error: " ++ e), "p") :=
  c6_empty_contributors_mapping_error (fun _ => some emptyContribRecord) "p" _ rfl rfl

theorem pyStr_str (s : String) : pyStr (Json.str s) = s := rfl

theorem conv_msg_ne_true (s : String) : ("Json conversion error: \n" ++ s) ≠ "True" := by
  intro h
  have h2 := congrArg String.data h
  rw [String.data_append] at h2
  have h3 : "Json conversion error: \n".data = 'J' :: "son conversion error: \n".data := rfl
  rw [h3, List.cons_append] at h2
  have h4 : "True".data = 'T' :: "rue".data := rfl
  rw [h4] at h2
  injection h2 with h5 _
  exact absurd h5 (by decide)

theorem api_msg_ne_true (s : String) : ("API error: \n" ++ s) ≠ "True" := by
  intro h
  have h2 := congrArg String.data h
  rw [String.data_append] at h2
  have h3 : "API error: \n".data = 'A' :: "PI error: \n".data := rfl
  rw [h3, List.cons_append] at h2
  have h4 : "True".data = 'T' :: "rue".data := rfl
  rw [h4] at h2
  injection h2 with h5 _
  exact absurd h5 (by decide)

theorem conv_verdict_false (s : String) :
    ((("Json conversion error: \n" ++ s) : String) == "True") = false :=
  beq_eq_false_iff_ne.mpr (conv_msg_ne_true s)

theorem api_verdict_false (s : String) :
    ((("API error: \n" ++ s) : String) == "True") = false :=
  beq_eq_false_iff_ne.mpr (api_msg_ne_true s)

theorem route_one_triple (cat : Cat) (x : Json) (tr : String) (p : Json) (s : RouteState) :
    route_one cat (ValidationOutcome.triple x tr p) s =
      (if (pyStr x == "True") = true
       then PyResult.ok (addSuccess cat (lastSeg tr) p s)
       else PyResult.ok (addFail cat tr (outcomeRepr (ValidationOutcome.triple x tr p)) s)) :=
  rfl

theorem route_one_pair_fail (cat : Cat) (m tr : String) (s : RouteState)
    (hm : (m == "True") = false) :
    route_one cat (ValidationOutcome.pair (Json.str m) tr) s =
      PyResult.ok (addFail cat tr (outcomeRepr (ValidationOutcome.pair (Json.str m) tr)) s) := by
  simp [route_one, outFirst, outTraining, pyStr_str, hm]

theorem succList_addSuccess_same (cat : Cat) (n : String) (p : Json) (s : RouteState) :
    succList cat (addSuccess cat n p s) = succList cat s ++ [(n, p)] := by
  cases cat <;> rfl

theorem succList_addSuccess_other (cat : Cat) (n : String) (p : Json) (s : RouteState) :
    succList (otherCat cat) (addSuccess cat n p s) = succList (otherCat cat) s := by
  cases cat <;> rfl

theorem failList_addSuccess (cat c2 : Cat) (n : String) (p : Json) (s : RouteState) :
    failList c2 (addSuccess cat n p s) = failList c2 s := by
  cases cat <;> cases c2 <;> rfl

theorem log_addSuccess (cat : Cat) (n : String) (p : Json) (s : RouteState) :
    (addSuccess cat n p s).log = s.log := by
  cases cat <;> rfl

theorem succList_addFail (cat c2 : Cat) (path line : String) (s : RouteState) :
    succList c2 (addFail cat path line s) = succList c2 s := by
  cases cat <;> cases c2 <;> rfl

theorem failList_addFail_same (cat : Cat) (path line : String) (s : RouteState) :
    failList cat (addFail cat path line s) = failList cat s ++ [path] := by
  cases cat <;> rfl

theorem failList_addFail_other (cat : Cat) (path line : String) (s : RouteState) :
    failList (otherCat cat) (addFail cat path line s) = failList (otherCat cat) s := by
  cases cat <;> rfl

theorem log_addFail (cat : Cat) (path line : String) (s : RouteState) :
    (addFail cat path line s).log = s.log ++ [line] := by
  cases cat <;> rfl

theorem route_validate_cases (cat : Cat) (net : Json → Nat × Json × String)
    (e : Json × String) (s : RouteState) :
    ((pyStr (outFirst (validate_eosc_json net e).1) == "True") = true →
      ∃ s2,
        route_one cat (validate_eosc_json net e).1 s = PyResult.ok s2 ∧
        succList cat s2 =
          succList cat s ++ [(lastSeg (outTraining (validate_eosc_json net e).1), e.1)] ∧
        succList (otherCat cat) s2 = succList (otherCat cat) s ∧
        failList Cat.newT s2 = failList Cat.newT s ∧
        failList Cat.updatedT s2 = failList Cat.updatedT s ∧
        s2.log = s.log) ∧
    ((pyStr (outFirst (validate_eosc_json net e).1) == "True") = false →
      ∃ s2,
        route_one cat (validate_eosc_json net e).1 s = PyResult.ok s2 ∧
        succList Cat.newT s2 = succList Cat.newT s ∧
        succList Cat.updatedT s2 = succList Cat.updatedT s ∧
        failList cat s2 = failList cat s ++ [outTraining (validate_eosc_json net e).1] ∧
        failList (otherCat cat) s2 = failList (otherCat cat) s ∧
        s2.log = s.log ++ [outcomeRepr (validate_eosc_json net e).1]) := by
  obtain ⟨p1, p2⟩ := e
  have hshape : (∃ kvs, p1 = Json.obj kvs) ∨
      validate_eosc_json net (p1, p2) =
        (ValidationOutcome.pair (Json.str ("Json conversion error: \n" ++ pyStr p1)) p2, false) := by
    cases p1 <;> simp [validate_eosc_json]
  rcases hshape with ⟨kvs, rfl⟩ | hpair
  · by_cases hr : (net (Json.obj kvs)).1 = 200
    · have hval : (validate_eosc_json net (Json.obj kvs, p2)).1 =
          ValidationOutcome.triple ((net (Json.obj kvs)).2.1) p2 (Json.obj kvs) := by
        simp [validate_eosc_json, hr]
      rw [hval]
      simp only [outFirst, outTraining]
      constructor
      · intro hv
        exact ⟨addSuccess cat (lastSeg p2) (Json.obj kvs) s,
          by rw [route_one_triple, if_pos hv],
          succList_addSuccess_same cat (lastSeg p2) (Json.obj kvs) s,
          succList_addSuccess_other cat (lastSeg p2) (Json.obj kvs) s,
          failList_addSuccess cat Cat.newT (lastSeg p2) (Json.obj kvs) s,
          failList_addSuccess cat Cat.updatedT (lastSeg p2) (Json.obj kvs) s,
          log_addSuccess cat (lastSeg p2) (Json.obj kvs) s⟩
      · intro hv
        exact ⟨addFail cat p2
            (outcomeRepr (ValidationOutcome.triple ((net (Json.obj kvs)).2.1) p2 (Json.obj kvs))) s,
          by rw [route_one_triple, if_neg (by simp [hv])],
          succList_addFail cat Cat.newT p2 _ s,
          succList_addFail cat Cat.updatedT p2 _ s,
          failList_addFail_same cat p2 _ s,
          failList_addFail_other cat p2 _ s,
          log_addFail cat p2 _ s⟩
    · have hval : (validate_eosc_json net (Json.obj kvs, p2)).1 =
          ValidationOutcome.triple (Json.str ("API error: \n" ++ (net (Json.obj kvs)).2.2)) p2
            (Json.obj kvs) := by
        simp [validate_eosc_json, hr]
      rw [hval]
      simp only [outFirst, outTraining, pyStr_str]
      constructor
      · intro hv
        rw [api_verdict_false] at hv
        exact absurd hv (by simp)
      · intro hv
        exact ⟨addFail cat p2
            (outcomeRepr (ValidationOutcome.triple
              (Json.str ("API error: \n" ++ (net (Json.obj kvs)).2.2)) p2 (Json.obj kvs))) s,
          by rw [route_one_triple, if_neg (by simp [pyStr_str, api_verdict_false])],
          succList_addFail cat Cat.newT p2 _ s,
          succList_addFail cat Cat.updatedT p2 _ s,
          failList_addFail_same cat p2 _ s,
          failList_addFail_other cat p2 _ s,
          log_addFail cat p2 _ s⟩
  · rw [hpair]
    simp only [outFirst, outTraining, pyStr_str]
    constructor
    · intro hv
      rw [conv_verdict_false] at hv
      exact absurd hv (by simp)
    · intro hv
      exact ⟨addFail cat p2
          (outcomeRepr (ValidationOutcome.pair
            (Json.str ("Json conversion error: \n" ++ pyStr p1)) p2)) s,
        route_one_pair_fail cat _ p2 s (conv_verdict_false (pyStr p1)),
        succList_addFail cat Cat.newT p2 _ s,
        succList_addFail cat Cat.updatedT p2 _ s,
        failList_addFail_same cat p2 _ s,
        failList_addFail_other cat p2 _ s,
        log_addFail cat p2 _ s⟩

theorem compareStep_mono1 (old : Snapshot) (fN fU : List String) (t tr : String) (j : Json)
    (acc : List String × List String) (x : String) (hx : x ∈ acc.1) :
    x ∈ (compareStep old fN fU t tr j acc).1 := by
  rcases h : oldLookup old t tr with _ | oldJ <;>
    simp only [compareStep, h] <;>
    split_ifs <;>
    simp [List.mem_append, hx]

theorem compareStep_mono2 (old : Snapshot) (fN fU : List String) (t tr : String) (j : Json)
    (acc : List String × List String) (x : String) (hx : x ∈ acc.2) :
    x ∈ (compareStep old fN fU t tr j acc).2 := by
  rcases h : oldLookup old t tr with _ | oldJ <;>
    simp only [compareStep, h] <;>
    split_ifs <;>
    simp [List.mem_append, hx]

theorem compareStep_adds_new (old : Snapshot) (fN fU : List String) (t tr : String) (j : Json)
    (acc : List String × List String) (h1 : tr ∈ fN) :
    pathOf t tr ∈ (compareStep old fN fU t tr j acc).1 := by
  rcases h : oldLookup old t tr with _ | oldJ <;>
    simp only [compareStep, h] <;>
    split_ifs <;>
    simp_all [List.mem_append]

theorem compareStep_adds_upd (old : Snapshot) (fN fU : List String) (t tr : String) (j : Json)
    (acc : List String × List String) (h1 : tr ∈ fU) :
    pathOf t tr ∈ (compareStep old fN fU t tr j acc).2 := by
  rcases h : oldLookup old t tr with _ | oldJ <;>
    simp only [compareStep, h] <;>
    split_ifs <;>
    simp_all [List.mem_append]

theorem compareTopic_mono1 (old : Snapshot) (fN fU : List String) (t : String)
    (ms : List (String × Json)) : ∀ (acc : List String × List String) (x : String),
    x ∈ acc.1 → x ∈ (compareTopic old fN fU t ms acc).1 := by
  induction ms with
  | nil => intro acc x hx; exact hx
  | cons hd rest ih =>
    intro acc x hx
    obtain ⟨tr, j⟩ := hd
    exact ih _ x (compareStep_mono1 old fN fU t tr j acc x hx)

theorem compareTopic_mono2 (old : Snapshot) (fN fU : List String) (t : String)
    (ms : List (String × Json)) : ∀ (acc : List String × List String) (x : String),
    x ∈ acc.2 → x ∈ (compareTopic old fN fU t ms acc).2 := by
  induction ms with
  | nil => intro acc x hx; exact hx
  | cons hd rest ih =>
    intro acc x hx
    obtain ⟨tr, j⟩ := hd
    exact ih _ x (compareStep_mono2 old fN fU t tr j acc x hx)

theorem compareTopic_adds_new (old : Snapshot) (fN fU : List String) (t tr : String) (j : Json)
    (ms : List (String × Json)) (hms : (tr, j) ∈ ms) (h1 : tr ∈ fN) :
    ∀ (acc : List String × List String), pathOf t tr ∈ (compareTopic old fN fU t ms acc).1 := by
  induction ms with
  | nil => cases hms
  | cons hd rest ih =>
    intro acc
    rcases List.mem_cons.mp hms with heq | hmem
    · subst heq
      exact compareTopic_mono1 old fN fU t rest _ _
        (compareStep_adds_new old fN fU t tr j acc h1)
    · obtain ⟨tr2, j2⟩ := hd
      exact ih hmem _

theorem compareTopic_adds_upd (old : Snapshot) (fN fU : List String) (t tr : String) (j : Json)
    (ms : List (String × Json)) (hms : (tr, j) ∈ ms) (h1 : tr ∈ fU) :
    ∀ (acc : List String × List String), pathOf t tr ∈ (compareTopic old fN fU t ms acc).2 := by
  induction ms with
  | nil => cases hms
  | cons hd rest ih =>
    intro acc
    rcases List.mem_cons.mp hms with heq | hmem
    · subst heq
      exact compareTopic_mono2 old fN fU t rest _ _
        (compareStep_adds_upd old fN fU t tr j acc h1)
    · obtain ⟨tr2, j2⟩ := hd
      exact ih hmem _

theorem compareAll_mono1 (old : Snapshot) (fN fU : List String) (cur : Snapshot) :
    ∀ (acc : List String × List String) (x : String),
    x ∈ acc.1 → x ∈ (compareAll old fN fU cur acc).1 := by
  induction cur with
  | nil => intro acc x hx; exact hx
  | cons hd rest ih =>
    intro acc x hx
    obtain ⟨t, ms⟩ := hd
    exact ih _ x (compareTopic_mono1 old fN fU t ms acc x hx)

theorem compareAll_mono2 (old : Snapshot) (fN fU : List String) (cur : Snapshot) :
    ∀ (acc : List String × List String) (x : String),
    x ∈ acc.2 → x ∈ (compareAll old fN fU cur acc).2 := by
  induction cur with
  | nil => intro acc x hx; exact hx
  | cons hd rest ih =>
    intro acc x hx
    obtain ⟨t, ms⟩ := hd
    exact ih _ x (compareTopic_mono2 old fN fU t ms acc x hx)

theorem compareAll_adds_new (old : Snapshot) (fN fU : List String) (cur : Snapshot)
    (t tr : String) (j : Json) (ms : List (String × Json))
    (hcur : (t, ms) ∈ cur) (hms : (tr, j) ∈ ms) (h1 : tr ∈ fN) :
    ∀ acc, pathOf t tr ∈ (compareAll old fN fU cur acc).1 := by
  induction cur with
  | nil => cases hcur
  | cons hd rest ih =>
    intro acc
    rcases List.mem_cons.mp hcur with heq | hmem
    · subst heq
      exact compareAll_mono1 old fN fU rest _ _
        (compareTopic_adds_new old fN fU t tr j ms hms h1 acc)
    · obtain ⟨t2, ms2⟩ := hd
      exact ih hmem _

theorem compareAll_adds_upd (old : Snapshot) (fN fU : List String) (cur : Snapshot)
    (t tr : String) (j : Json) (ms : List (String × Json))
    (hcur : (t, ms) ∈ cur) (hms : (tr, j) ∈ ms) (h1 : tr ∈ fU) :
    ∀ acc, pathOf t tr ∈ (compareAll old fN fU cur acc).2 := by
  induction cur with
  | nil => cases hcur
  | cons hd rest ih =>
    intro acc
    rcases List.mem_cons.mp hcur with heq | hmem
    · subst heq
      exact compareAll_mono2 old fN fU rest _ _
        (compareTopic_adds_upd old fN fU t tr j ms hms h1 acc)
    · obtain ⟨t2, ms2⟩ := hd
      exact ih hmem _

/-- C5 (amended): a previously failed training name is re-queued into the
matching ChangeSet list whenever a training of that name is present in the
current snapshot. -/
theorem c5_failed_training_requeued (cur old : Snapshot) (fN fU : List String)
    (t tr : String) (j : Json) (ms : List (String × Json))
    (hcur : (t, ms) ∈ cur) (hms : (tr, j) ∈ ms) :
    (tr ∈ fN → pathOf t tr ∈ (compare_training_material cur old fN fU).1) ∧
    (tr ∈ fU → pathOf t tr ∈ (compare_training_material cur old fN fU).2) :=
  ⟨fun h1 => compareAll_adds_new old fN fU cur t tr j ms hcur hms h1 ([], []),
   fun h1 => compareAll_adds_upd old fN fU cur t tr j ms hcur hms h1 ([], [])⟩

theorem c5_failed_training_requeued_witness :
    pathOf "a" "x.json" ∈ (compare_training_material dupCur [] ["x.json"] []).1 :=
  (c5_failed_training_requeued dupCur [] ["x.json"] [] "a" "x.json" (Json.num 1)
    [("x.json", Json.num 1)] (List.mem_singleton.mpr rfl) (List.mem_singleton.mpr rfl)).1
    (List.mem_singleton.mpr rfl)

theorem compareStep_src1 (old : Snapshot) (fN fU : List String) (t tr : String) (j : Json)
    (acc : List String × List String) (x : String)
    (hx : x ∈ (compareStep old fN fU t tr j acc).1) :
    x ∈ acc.1 ∨ x = pathOf t tr := by
  rcases h : oldLookup old t tr with _ | oldJ <;>
    simp only [compareStep, h] at hx <;>
    split_ifs at hx <;>
    simp_all [List.mem_append]

theorem compareStep_src2 (old : Snapshot) (fN fU : List String) (t tr : String) (j : Json)
    (acc : List String × List String) (x : String)
    (hx : x ∈ (compareStep old fN fU t tr j acc).2) :
    x ∈ acc.2 ∨ x = pathOf t tr := by
  rcases h : oldLookup old t tr with _ | oldJ <;>
    simp only [compareStep, h] at hx <;>
    split_ifs at hx <;>
    simp_all [List.mem_append]

theorem compareTopic_src1 (old : Snapshot) (fN fU : List String) (t : String)
    (ms : List (String × Json)) : ∀ (acc : List String × List String) (x : String),
    x ∈ (compareTopic old fN fU t ms acc).1 →
    x ∈ acc.1 ∨ ∃ tr j, (tr, j) ∈ ms ∧ x = pathOf t tr := by
  induction ms with
  | nil => intro acc x hx; exact Or.inl hx
  | cons hd rest ih =>
    intro acc x hx
    obtain ⟨tr, j⟩ := hd
    rcases ih _ x hx with hacc | ⟨tr2, j2, hmem, heq⟩
    · rcases compareStep_src1 old fN fU t tr j acc x hacc with h1 | h1
      · exact Or.inl h1
      · exact Or.inr ⟨tr, j, List.mem_cons_self _ _, h1⟩
    · exact Or.inr ⟨tr2, j2, List.mem_cons_of_mem _ hmem, heq⟩

theorem compareTopic_src2 (old : Snapshot) (fN fU : List String) (t : String)
    (ms : List (String × Json)) : ∀ (acc : List String × List String) (x : String),
    x ∈ (compareTopic old fN fU t ms acc).2 →
    x ∈ acc.2 ∨ ∃ tr j, (tr, j) ∈ ms ∧ x = pathOf t tr := by
  induction ms with
  | nil => intro acc x hx; exact Or.inl hx
  | cons hd rest ih =>
    intro acc x hx
    obtain ⟨tr, j⟩ := hd
    rcases ih _ x hx with hacc | ⟨tr2, j2, hmem, heq⟩
    · rcases compareStep_src2 old fN fU t tr j acc x hacc with h1 | h1
      · exact Or.inl h1
      · exact Or.inr ⟨tr, j, List.mem_cons_self _ _, h1⟩
    · exact Or.inr ⟨tr2, j2, List.mem_cons_of_mem _ hmem, heq⟩

theorem compareAll_src1 (old : Snapshot) (fN fU : List String) (cur : Snapshot) :
    ∀ (acc : List String × List String) (x : String),
    x ∈ (compareAll old fN fU cur acc).1 →
    x ∈ acc.1 ∨ ∃ t ms tr j, (t, ms) ∈ cur ∧ (tr, j) ∈ ms ∧ x = pathOf t tr := by
  induction cur with
  | nil => intro acc x hx; exact Or.inl hx
  | cons hd rest ih =>
    intro acc x hx
    obtain ⟨t, ms⟩ := hd
    rcases ih _ x hx with hacc | ⟨t2, ms2, tr2, j2, hc, hm, he⟩
    · rcases compareTopic_src1 old fN fU t ms acc x hacc with h1 | ⟨tr, j, hm, he⟩
      · exact Or.inl h1
      · exact Or.inr ⟨t, ms, tr, j, List.mem_cons_self _ _, hm, he⟩
    · exact Or.inr ⟨t2, ms2, tr2, j2, List.mem_cons_of_mem _ hc, hm, he⟩

theorem compareAll_src2 (old : Snapshot) (fN fU : List String) (cur : Snapshot) :
    ∀ (acc : List String × List String) (x : String),
    x ∈ (compareAll old fN fU cur acc).2 →
    x ∈ acc.2 ∨ ∃ t ms tr j, (t, ms) ∈ cur ∧ (tr, j) ∈ ms ∧ x = pathOf t tr := by
  induction cur with
  | nil => intro acc x hx; exact Or.inl hx
  | cons hd rest ih =>
    intro acc x hx
    obtain ⟨t, ms⟩ := hd
    rcases ih _ x hx with hacc | ⟨t2, ms2, tr2, j2, hc, hm, he⟩
    · rcases compareTopic_src2 old fN fU t ms acc x hacc with h1 | ⟨tr, j, hm, he⟩
      · exact Or.inl h1
      · exact Or.inr ⟨t, ms, tr, j, List.mem_cons_self _ _, hm, he⟩
    · exact Or.inr ⟨t2, ms2, tr2, j2, List.mem_cons_of_mem _ hc, hm, he⟩

theorem lookup_of_key_mem (l : List (String × Json)) (k : String)
    (h : k ∈ l.map Prod.fst) : ∃ v, l.lookup k = some v := by
  induction l with
  | nil => cases h
  | cons hd rest ih =>
    obtain ⟨k2, v2⟩ := hd
    by_cases he : k = k2
    · subst he
      exact ⟨v2, by simp [List.lookup]⟩
    · have hm : k ∈ rest.map Prod.fst := by
        rcases List.mem_map.mp h with ⟨p, hp, he2⟩
        rcases List.mem_cons.mp hp with rfl | hp2
        · exact absurd he2.symm he
        · exact List.mem_map.mpr ⟨p, hp2, he2⟩
      obtain ⟨v, hv⟩ := ih hm
      exact ⟨v, by simp [List.lookup, beq_eq_false_iff_ne.mpr he, hv]⟩

theorem snapshotFiles_key (cur : Snapshot) (t tr : String) (j : Json)
    (ms : List (String × Json)) (hcur : (t, ms) ∈ cur) (hms : (tr, j) ∈ ms) :
    pathOf t tr ∈ (snapshotFiles cur).map Prod.fst := by
  induction cur with
  | nil => cases hcur
  | cons hd rest ih =>
    obtain ⟨t2, ms2⟩ := hd
    rcases List.mem_cons.mp hcur with heq | hmem
    · injection heq with he1 he2
      subst he1; subst he2
      simp only [snapshotFiles, List.map_append, List.mem_append]
      exact Or.inl (List.mem_map.mpr ⟨(pathOf t tr, j),
        List.mem_map.mpr ⟨(tr, j), hms, rfl⟩, rfl⟩)
    · simp only [snapshotFiles, List.map_append, List.mem_append]
      exact Or.inr (ih hmem)

theorem snapshotFS_total (cur : Snapshot) (t tr : String) (j : Json)
    (ms : List (String × Json)) (hcur : (t, ms) ∈ cur) (hms : (tr, j) ∈ ms) :
    ∃ v, snapshotFS cur (pathOf t tr) = some v :=
  lookup_of_key_mem (snapshotFiles cur) (pathOf t tr)
    (snapshotFiles_key cur t tr j ms hcur hms)

theorem changeset_mappable1 (cur old : Snapshot) (fN fU : List String) (p : String)
    (hp : p ∈ (compare_training_material cur old fN fU).1) :
    ∃ v, snapshotFS cur p = some v := by
  rcases compareAll_src1 old fN fU cur ([], []) p hp with h | ⟨t, ms, tr, j, hc, hm, rfl⟩
  · cases h
  · exact snapshotFS_total cur t tr j ms hc hm

theorem changeset_mappable2 (cur old : Snapshot) (fN fU : List String) (p : String)
    (hp : p ∈ (compare_training_material cur old fN fU).2) :
    ∃ v, snapshotFS cur p = some v := by
  rcases compareAll_src2 old fN fU cur ([], []) p hp with h | ⟨t, ms, tr, j, hc, hm, rfl⟩
  · cases h
  · exact snapshotFS_total cur t tr j ms hc hm

theorem pyMapM_total (f : α → PyResult β) (l : List α)
    (h : ∀ a ∈ l, ∃ b, f a = PyResult.ok b) :
    ∃ bs, pyMapM f l = PyResult.ok bs ∧ bs.length = l.length := by
  induction l with
  | nil => exact ⟨[], rfl, rfl⟩
  | cons a t ih =>
    obtain ⟨b, hb⟩ := h a (List.mem_cons_self _ _)
    obtain ⟨bs, hbs, hlen⟩ := ih (fun x hx => h x (List.mem_cons_of_mem _ hx))
    exact ⟨b :: bs, by simp [pyMapM, hb, hbs], by simp [hlen]⟩

theorem validate_routable (net : Json → Nat × Json × String) (m : Json × String) :
    Routable (validate_eosc_json net m).1 := by
  intro cat s
  cases hv : (pyStr (outFirst (validate_eosc_json net m).1) == "True") with
  | true =>
    obtain ⟨s2, hroute, h1, h2, h3, h4, h5⟩ := (route_validate_cases cat net m s).1 hv
    refine ⟨s2, hroute, ?_, ?_⟩
    · have e1 := congrArg List.length h1
      have e2 := congrArg List.length h2
      have e3 := congrArg List.length h3
      have e4 := congrArg List.length h4
      cases cat <;>
        simp [totalWrites, succList, failList, otherCat, List.length_append] at e1 e2 e3 e4 ⊢ <;>
        omega
    · have e5 := congrArg List.length h5
      have e3 := congrArg List.length h3
      have e4 := congrArg List.length h4
      cases cat <;>
        simp [failCount, succList, failList, otherCat] at e3 e4 e5 ⊢ <;>
        omega
  | false =>
    obtain ⟨s2, hroute, h1, h2, h3, h4, h5⟩ := (route_validate_cases cat net m s).2 hv
    refine ⟨s2, hroute, ?_, ?_⟩
    · have e1 := congrArg List.length h1
      have e2 := congrArg List.length h2
      have e3 := congrArg List.length h3
      have e4 := congrArg List.length h4
      cases cat <;>
        simp [totalWrites, succList, failList, otherCat, List.length_append] at e1 e2 e3 e4 ⊢ <;>
        omega
    · have e5 := congrArg List.length h5
      have e3 := congrArg List.length h3
      have e4 := congrArg List.length h4
      cases cat <;>
        simp [failCount, succList, failList, otherCat, List.length_append] at e3 e4 e5 ⊢ <;>
        omega

theorem route_list_routable (cat : Cat) (os : List ValidationOutcome)
    (h : ∀ o ∈ os, Routable o) : ∀ s, ∃ s2,
    route_list cat os s = PyResult.ok s2 ∧
    totalWrites s2 = totalWrites s + os.length ∧
    s2.log.length + failCount s = s.log.length + failCount s2 := by
  induction os with
  | nil => intro s; exact ⟨s, rfl, by simp, by simp⟩
  | cons o t ih =>
    intro s
    obtain ⟨s1, h1, h2, h3⟩ := h o (List.mem_cons_self _ _) cat s
    obtain ⟨s2, g1, g2, g3⟩ := ih (fun x hx => h x (List.mem_cons_of_mem _ hx)) s1
    refine ⟨s2, ?_, ?_, ?_⟩
    · simp [route_list, h1, g1]
    · simp only [List.length_cons]
      omega
    · omega

/-- C1 (amended): each occurrence of a path in the ChangeSet lists yields
exactly one ValidationOutcome and exactly one write — the total number of
store writes equals the total length of the two ChangeSet lists, and the
failure log gets exactly one line per failure-store write. -/
theorem c1_per_occurrence_writes (cur old : Snapshot) (fN fU : List String)
    (net : Json → Nat × Json × String) :
    ∃ s, run_pipeline cur old fN fU net = PyResult.ok s ∧
      totalWrites s = (compare_training_material cur old fN fU).1.length +
        (compare_training_material cur old fN fU).2.length ∧
      s.log.length = failCount s := by
  obtain ⟨newMapped, hN, hNlen⟩ := pyMapM_total (training_to_eosc_json (snapshotFS cur))
    (compare_training_material cur old fN fU).1 (fun p hp => by
      obtain ⟨v, hv⟩ := changeset_mappable1 cur old fN fU p hp
      exact mapper_total _ p v hv)
  obtain ⟨updMapped, hU, hUlen⟩ := pyMapM_total (training_to_eosc_json (snapshotFS cur))
    (compare_training_material cur old fN fU).2 (fun p hp => by
      obtain ⟨v, hv⟩ := changeset_mappable2 cur old fN fU p hp
      exact mapper_total _ p v hv)
  have hroutN : ∀ o ∈ newMapped.map (fun m => (validate_eosc_json net m).1), Routable o := by
    intro o ho
    rcases List.mem_map.mp ho with ⟨m, hm, rfl⟩
    exact validate_routable net m
  have hroutU : ∀ o ∈ updMapped.map (fun m => (validate_eosc_json net m).1), Routable o := by
    intro o ho
    rcases List.mem_map.mp ho with ⟨m, hm, rfl⟩
    exact validate_routable net m
  obtain ⟨s1, hr1, hw1, hl1⟩ := route_list_routable Cat.newT _ hroutN initRouteState
  obtain ⟨s2, hr2, hw2, hl2⟩ := route_list_routable Cat.updatedT _ hroutU s1
  refine ⟨s2, ?_, ?_, ?_⟩
  · simp only [run_pipeline, hN, hU, process_validated_trainings, hr1, hr2]
  · have h0 : totalWrites initRouteState = 0 := rfl
    simp only [List.length_map] at hw1 hw2
    omega
  · have h0 : failCount initRouteState = 0 := rfl
    have h1 : initRouteState.log.length = 0 := rfl
    omega

/-- C9: for every outcome produced by `validate_eosc_json` on the mapped
input `e`, when the embedded verdict stringifies to `"True"` the router
writes exactly the serialized MappedRecord `e.1` (the payload the validator
was given, carried as `training[2]`) into the category's success store under
the identity (last path segment), touching nothing else; otherwise it copies
the source path into the category's failure store and appends exactly one
line for the full outcome to the log, leaving the success stores
untouched. -/
theorem c9_router_behaviour (cat : Cat) (net : Json → Nat × Json × String)
    (e : Json × String) (s : RouteState) :
    ((pyStr (outFirst (validate_eosc_json net e).1) == "True") = true →
      ∃ s2,
        route_one cat (validate_eosc_json net e).1 s = PyResult.ok s2 ∧
        succList cat s2 =
          succList cat s ++ [(lastSeg (outTraining (validate_eosc_json net e).1), e.1)] ∧
        succList (otherCat cat) s2 = succList (otherCat cat) s ∧
        failList Cat.newT s2 = failList Cat.newT s ∧
        failList Cat.updatedT s2 = failList Cat.updatedT s ∧
        s2.log = s.log) ∧
    ((pyStr (outFirst (validate_eosc_json net e).1) == "True") = false →
      ∃ s2,
        route_one cat (validate_eosc_json net e).1 s = PyResult.ok s2 ∧
        succList Cat.newT s2 = succList Cat.newT s ∧
        succList Cat.updatedT s2 = succList Cat.updatedT s ∧
        failList cat s2 = failList cat s ++ [outTraining (validate_eosc_json net e).1] ∧
        failList (otherCat cat) s2 = failList (otherCat cat) s ∧
        s2.log = s.log ++ [outcomeRepr (validate_eosc_json net e).1]) :=
  route_validate_cases cat net e s

theorem c9_router_behaviour_witness :
    (∃ s2,
      route_one Cat.newT (validate_eosc_json verdictTrueNet (Json.obj [], "a/b.json")).1
          initRouteState = PyResult.ok s2 ∧
      succList Cat.newT s2 = succList Cat.newT initRouteState ++
        [(lastSeg (outTraining (validate_eosc_json verdictTrueNet (Json.obj [], "a/b.json")).1),
          Json.obj [])] ∧
      succList (otherCat Cat.newT) s2 = succList (otherCat Cat.newT) initRouteState ∧
      failList Cat.newT s2 = failList Cat.newT initRouteState ∧
      failList Cat.updatedT s2 = failList Cat.updatedT initRouteState ∧
      s2.log = initRouteState.log) ∧
    (∃ s2,
      route_one Cat.newT (validate_eosc_json verdictTrueNet (Json.str "m", "p")).1
          initRouteState = PyResult.ok s2 ∧
      succList Cat.newT s2 = succList Cat.newT initRouteState ∧
      succList Cat.updatedT s2 = succList Cat.updatedT initRouteState ∧
      failList Cat.newT s2 = failList Cat.newT initRouteState ++
        [outTraining (validate_eosc_json verdictTrueNet (Json.str "m", "p")).1] ∧
      failList (otherCat Cat.newT) s2 = failList (otherCat Cat.newT) initRouteState ∧
      s2.log = initRouteState.log ++
        [outcomeRepr (validate_eosc_json verdictTrueNet (Json.str "m", "p")).1]) :=
  ⟨(c9_router_behaviour Cat.newT verdictTrueNet (Json.obj [], "a/b.json") initRouteState).1 rfl,
   (c9_router_behaviour Cat.newT verdictTrueNet (Json.str "m", "p") initRouteState).2 rfl⟩

/-- C1 (counterexample): one record identity (`x.json`) that is new (absent
from the previous snapshot) and also carried over from the previous run's
updated-trainings failure bucket enters the ChangeSet twice, producing two
ValidationOutcomes and two writes (plus two log lines) — not exactly one. -/
theorem c1_counterexample :
    ∃ s, run_pipeline dupCur [] [] ["x.json"] acceptAllNet = PyResult.ok s ∧
      writesFor s "x.json" = 2 ∧ s.log.length = 2 := by
  refine ⟨_, rfl, rfl, rfl⟩
